import Mathlib

/-!
# Verification of the multi-agent workflow core

Shallow embedding of the orchestration pipeline (Plan → Execute → Validate →
conditionally Correct), the shared `AgentState` record threaded through the
stages, and the bounded short-term memory.  Definitions mirror the Python
source (`src/graph.py`, `src/agents/*.py`, `src/memory/short_term.py`,
`src/api/schemas.py`); the external reasoning oracle and tool layer are
modelled as fallible function parameters (`Except String _`), matching the
spec's collaborator contracts.
-/

/-- A `{role, content}` turn record (entries of `state["messages"]`). -/
structure Turn where
  role : String
  content : String
deriving DecidableEq, Repr

/-- Values stored in the open `metadata` mapping: tool lists, complexity
labels, confidence scores.  Python holds these untyped (`Dict[str, Any]`);
we use a small sum. -/
inductive MetaVal where
  | str (s : String)
  | num (q : ℚ)
  | strs (l : List String)
deriving DecidableEq, Repr

/-- `AgentState` from `src/api/schemas.py`: the single mutable record threaded
through the pipeline.  Python dictionaries preserve insertion order, so
`execution_results` and `metadata` are association lists. -/
structure AgentState where
  messages : List Turn
  current_plan : Option (List String)
  execution_results : List (String × String)
  validation_status : Option String
  corrections_needed : List String
  final_output : Option String
  metadata : List (String × MetaVal)
deriving DecidableEq, Repr

/-- `TaskPlan` (structured planner output) from `src/api/schemas.py`. -/
structure TaskPlan where
  subtasks : List String
  dependencies : List (String × List String)
  estimated_complexity : String
  required_tools : List String
deriving DecidableEq, Repr

/-- `ValidationResult` (structured validator output) from
`src/api/schemas.py`.  The float confidence is modelled as a rational; it is
only ever stored and displayed, never computed with. -/
structure ValidationResult where
  is_valid : Bool
  confidence : ℚ
  issues : List String
  suggestions : List String
deriving DecidableEq, Repr

/-- Python `d[k] = v` on an insertion-ordered dict: overwrite in place when
the key exists, otherwise append. -/
def dictInsert {α : Type} (k : String) (v : α) (d : List (String × α)) :
    List (String × α) :=
  if d.any (fun p => p.1 == k) then
    d.map (fun p => if p.1 == k then (k, v) else p)
  else d ++ [(k, v)]

/-- The routing closure `should_correct` defined inside
`MultiAgentSystem._build_graph` (src/graph.py): branch key `"corrector"`
iff `state.get("validation_status") == "failed"`, else `"end"`. -/
def should_correct (state : AgentState) : String :=
  if state.validation_status = some "failed" then "corrector" else "end"

/-- Workflow nodes of the compiled graph, plus the terminal `END`. -/
inductive Node where
  | planner | executor | validator | corrector | terminal
deriving DecidableEq, Repr

/-- The conditional-edge branch map registered on the validator node:
`{"corrector": "corrector", "end": END}` (src/graph.py). -/
def validatorBranchMap (key : String) : Option Node :=
  if key = "corrector" then some Node.corrector
  else if key = "end" then some Node.terminal
  else none

/-- The node the engine visits after Validate: the router's branch key looked
up in the branch map. -/
def routeAfterValidator (state : AgentState) : Option Node :=
  validatorBranchMap (should_correct state)

/-- Python's `str.strip()`: remove leading and trailing whitespace.
Implemented structurally on the character list (core's `String.trim` is
defined by well-founded recursion and does not reduce in the kernel). -/
def pyStrip (s : String) : String :=
  ⟨((s.data.dropWhile Char.isWhitespace).reverse.dropWhile
      Char.isWhitespace).reverse⟩

/-- Python's `str.startswith(p)`, structurally on the character lists. -/
def pyStartsWith (s p : String) : Bool :=
  p.data.isPrefixOf s.data

/-- Renders the confidence score for the validator's trace message.  Python
formats the float with two decimals (`"%.2f"`); the exact rendering is not
load-bearing for any property and is abstracted as `toString`. -/
def formatConfidence (q : ℚ) : String := toString q

/-- `PlannerAgent.plan` (src/agents/planner.py).  The `oracle` parameter
stands for the `prompt | llm | parser` chain invoked on the task text (the
latest message); the stage has no try/except, so an oracle or decode failure
propagates.  Reading `state["messages"][-1]` on an empty list raises. -/
def PlannerAgent.plan (oracle : String → Except String TaskPlan)
    (state : AgentState) : Except String AgentState :=
  match state.messages.getLast? with
  | none => Except.error "list index out of range"
  | some lastMsg =>
    match oracle lastMsg.content with
    | Except.error e => Except.error e
    | Except.ok plan =>
      let n := plan.subtasks.length
      let c := plan.estimated_complexity
      Except.ok { state with
        current_plan := some plan.subtasks,
        metadata := dictInsert "estimated_complexity" (MetaVal.str c)
          (dictInsert "required_tools" (MetaVal.strs plan.required_tools)
            state.metadata),
        messages := state.messages ++
          [⟨"planner",
            s!"Created execution plan with {n} subtasks. Complexity: {c}"⟩] }

/-- One iteration of the executor's per-subtask loop body
(src/agents/executor.py lines 129-148): invoke the bounded tool-calling
agent on the subtask; on success store `result["output"]` under
`subtask_i`, on any exception store `"ERROR: " + str(e)`. -/
def ExecutorAgent.runSubtask (execOracle : String → String → Except String String)
    (toolNames : String) (i : Nat) (subtask : String) : String × String :=
  match execOracle subtask toolNames with
  | Except.ok out => (s!"subtask_{i}", out)
  | Except.error e => (s!"subtask_{i}", "ERROR: " ++ e)

/-- The executor's trace message (src/agents/executor.py lines 154-160):
`successful` counts the results whose value does **not** start with
`"ERROR"` — note: no colon, unlike the `"ERROR: "` marker written by the
loop body. -/
def executorSummary (results : List (String × String)) : String :=
  let total := results.length
  let successful := (results.filter (fun p => !pyStartsWith p.2 "ERROR")).length
  let errors := total - successful
  s!"Completed {total} subtasks ({successful} successful, {errors} errors)"

/-- `ExecutorAgent.execute` (src/agents/executor.py).  `execOracle` stands
for `self.executor.invoke` (the AgentExecutor wrapping the tool-invocation
loop), taking the subtask text and the comma-joined tool-name catalogue.
Note the success count tests `v.startswith("ERROR")` — without the colon. -/
def ExecutorAgent.execute (tools : List String)
    (execOracle : String → String → Except String String)
    (state : AgentState) : AgentState :=
  let plan := state.current_plan.getD []
  let toolNames := String.intercalate ", " tools
  let results := plan.enum.map
    (fun p => ExecutorAgent.runSubtask execOracle toolNames p.1 p.2)
  { state with
    execution_results := results,
    messages := state.messages ++ [⟨"executor", executorSummary results⟩] }

/-- `ValidatorAgent.validate` (src/agents/validator.py).  `valOracle` stands
for the `prompt | llm | parser` chain applied to (original query, combined
output); its failure is the `except` branch.  The short-circuit tests
whether the label-prefixed combined output strips to empty, and
`state["messages"][0]` is read before that test. -/
def ValidatorAgent.validate
    (valOracle : String → String → Except String ValidationResult)
    (state : AgentState) : Except String AgentState :=
  match state.messages.head? with
  | none => Except.error "list index out of range"
  | some firstMsg =>
    let original_query := firstMsg.content
    let combined_output := String.intercalate "\n\n"
      (state.execution_results.map (fun p => "Subtask " ++ p.1 ++ ": " ++ p.2))
    if pyStrip combined_output = "" then
      Except.ok { state with
        validation_status := some "failed",
        corrections_needed := ["No execution results found"],
        messages := state.messages ++
          [⟨"validator", "Validation failed: No results to validate"⟩] }
    else
      match valOracle original_query combined_output with
      | Except.ok validation =>
        let status : String := if validation.is_valid then "passed" else "failed"
        let emoji : String := if validation.is_valid then "✓" else "✗"
        let conf := formatConfidence validation.confidence
        let issueCount := validation.issues.length
        Except.ok { state with
          validation_status := some status,
          corrections_needed := validation.issues,
          metadata := dictInsert "validation_confidence"
            (MetaVal.num validation.confidence) state.metadata,
          messages := state.messages ++
            [⟨"validator",
              s!"Validation {status} {emoji} (confidence: {conf}). Issues found: {issueCount}"⟩] }
      | Except.error e =>
        Except.ok { state with
          validation_status := some "failed",
          corrections_needed := ["Validation error: " ++ e],
          messages := state.messages ++
            [⟨"validator", "Validation failed with error: " ++ e⟩] }

/-- `CorrectorAgent.correct` (src/agents/corrector.py).  `corrOracle` stands
for the `prompt | llm` chain applied to (joined issues, original output,
original query), returning the corrected text (`corrected.content`).  The
empty-`corrections_needed` branch reads no message, so only the correction
branch can raise on an empty message list. -/
def CorrectorAgent.correct
    (corrOracle : String → String → String → Except String String)
    (state : AgentState) : Except String AgentState :=
  if state.corrections_needed.isEmpty then
    Except.ok { state with
      final_output := some (String.intercalate "\n\n"
        (state.execution_results.map Prod.snd)),
      messages := state.messages ++
        [⟨"corrector", "No corrections needed - output is good!"⟩] }
  else
    match state.messages.head? with
    | none => Except.error "list index out of range"
    | some firstMsg =>
      let original_query := firstMsg.content
      let original_output := String.intercalate "\n\n"
        (state.execution_results.map Prod.snd)
      let issuesJoined := String.intercalate "\n- " state.corrections_needed
      match corrOracle issuesJoined original_output original_query with
      | Except.ok corrected =>
        let n := state.corrections_needed.length
        Except.ok { state with
          final_output := some corrected,
          messages := state.messages ++
            [⟨"corrector", s!"Applied corrections to address {n} issues"⟩] }
      | Except.error e =>
        Except.ok { state with
          final_output := some ("[Correction failed: " ++ e ++
            "]\n\nOriginal output:\n" ++ original_output),
          messages := state.messages ++
            [⟨"corrector", "Correction failed: " ++ e⟩] }

/-- The four fallible external-oracle collaborators, one per stage. -/
structure Oracles where
  planOracle : String → Except String TaskPlan
  execOracle : String → String → Except String String
  valOracle : String → String → Except String ValidationResult
  corrOracle : String → String → String → Except String String

/-- The compiled graph's `invoke` (topology from
`MultiAgentSystem._build_graph`): entry planner, static edges
planner→executor→validator, the conditional edge routed by
`should_correct`, and corrector→END. -/
def graphInvoke (o : Oracles) (tools : List String) (state : AgentState) :
    Except String AgentState := do
  let s1 ← PlannerAgent.plan o.planOracle state
  let s2 := ExecutorAgent.execute tools o.execOracle s1
  let s3 ← ValidatorAgent.validate o.valOracle s2
  match routeAfterValidator s3 with
  | some Node.corrector => CorrectorAgent.correct o.corrOracle s3
  | _ => Except.ok s3

/-- The result record `MultiAgentSystem.run` returns
(`{"output", "plan", "messages", "metadata"}`). -/
structure RunResult where
  output : Option String
  plan : Option (List String)
  messages : List Turn
  metadata : List (String × MetaVal)
deriving DecidableEq, Repr

/-- The fresh initial state built at the top of `MultiAgentSystem.run`. -/
def initialState (user_input : String) : AgentState :=
  { messages := [⟨"user", user_input⟩],
    current_plan := none,
    execution_results := [],
    validation_status := none,
    corrections_needed := [],
    final_output := none,
    metadata := [] }

/-- `MultiAgentSystem.run` (src/graph.py): build the initial state, invoke
the graph, extract the result record.  The short-term-memory side effects
do not touch the returned record and are modelled separately. -/
def MultiAgentSystem.run (o : Oracles) (tools : List String)
    (user_input : String) : Except String RunResult := do
  let final ← graphInvoke o tools (initialState user_input)
  Except.ok { output := final.final_output, plan := final.current_plan,
              messages := final.messages, metadata := final.metadata }

/-- Python's tail slice `l[-k:]`: the last `k` elements, except that `k = 0`
(`l[-0:]` = `l[0:]`) yields the whole list. -/
def pySliceLast {α : Type} (k : Nat) (l : List α) : List α :=
  if k = 0 then l else l.drop (l.length - k)

/-- `ShortTermMemory` (src/memory/short_term.py): the bounded message log.
The LangChain buffer is just the ordered list of message dicts. -/
structure ShortTermMemory where
  max_messages : Nat
  messages : List Turn
deriving DecidableEq, Repr

/-- `ShortTermMemory.add_message`: append, then trim to the last
`max_messages` entries when the limit is exceeded. -/
def ShortTermMemory.add_message (stm : ShortTermMemory)
    (role content : String) : ShortTermMemory :=
  let msgs := stm.messages ++ [⟨role, content⟩]
  if msgs.length > stm.max_messages then
    { stm with messages := pySliceLast stm.max_messages msgs }
  else { stm with messages := msgs }

/-- Adding a whole sequence of messages to a fresh short-term memory. -/
def ShortTermMemory.addAll (maxMessages : Nat) (toAdd : List Turn) :
    ShortTermMemory :=
  toAdd.foldl (fun stm m => stm.add_message m.role m.content)
    ⟨maxMessages, []⟩

/-! ### Concrete fixtures used by counterexamples and witnesses -/

/-- Oracles realizing end-to-end scenario 1: a two-subtask plan, both
subtasks succeed, validation passes.  The correction oracle is a stub that
errors if it is ever consulted. -/
def scenario1Oracles : Oracles where
  planOracle := fun _ => Except.ok ⟨["Load X", "Summarize"], [], "low", []⟩
  execOracle := fun task _ => Except.ok ("Result of " ++ task)
  valOracle := fun _ _ => Except.ok ⟨true, 1, [], []⟩
  corrOracle := fun _ _ _ => Except.error "corrector oracle consulted"

/-- A validation oracle that approves whatever it is shown. -/
def passingValOracle : String → String → Except String ValidationResult :=
  fun _ _ => Except.ok ⟨true, 1, [], []⟩

/-- A state whose `execution_results` mapping is all-blank: one entry with
the empty string as its value. -/
def blankResultsState : AgentState :=
  { messages := [⟨"user", "q"⟩],
    current_plan := none,
    execution_results := [("subtask_0", "")],
    validation_status := none,
    corrections_needed := [],
    final_output := none,
    metadata := [] }

/-- A tool-loop oracle whose successful answer happens to begin with the
letters `ERROR` (but not with the error marker `"ERROR: "`). -/
def errorishOracle : String → String → Except String String :=
  fun _ _ => Except.ok "ERRORS: none found"

/-- A one-subtask state for exercising the executor's success counting. -/
def errorishState : AgentState :=
  { messages := [⟨"user", "q"⟩],
    current_plan := some ["scan the log"],
    execution_results := [],
    validation_status := none,
    corrections_needed := [],
    final_output := none,
    metadata := [] }

/-- A tool-loop oracle that fails on subtask `"b"` and succeeds elsewhere. -/
def c4Oracle : String → String → Except String String :=
  fun task _ => if task = "b" then Except.error "boom" else Except.ok "fine"

/-- A two-subtask state for the executor theorems. -/
def c4State : AgentState :=
  { messages := [⟨"user", "q"⟩],
    current_plan := some ["a", "b"],
    execution_results := [],
    validation_status := none,
    corrections_needed := [],
    final_output := none,
    metadata := [] }

/-- A validation oracle that deems the output valid while still reporting an
issue — allowed by the `ValidationResult` schema, which does not tie
`issues` to `is_valid`. -/
def validWithIssuesOracle : String → String → Except String ValidationResult :=
  fun _ _ => Except.ok ⟨true, 1, ["minor nit"], []⟩

/-- A state with one non-blank execution result. -/
def someResultsState : AgentState :=
  { messages := [⟨"user", "q"⟩],
    current_plan := none,
    execution_results := [("subtask_0", "done")],
    validation_status := none,
    corrections_needed := [],
    final_output := none,
    metadata := [] }

/-- The state Validate produces from `someResultsState` under
`passingValOracle`. -/
def c5PostState : AgentState :=
  { messages := [⟨"user", "q"⟩,
      ⟨"validator", "Validation passed ✓ (confidence: 1). Issues found: 0"⟩],
    current_plan := none,
    execution_results := [("subtask_0", "done")],
    validation_status := some "passed",
    corrections_needed := [],
    final_output := none,
    metadata := [("validation_confidence", MetaVal.num 1)] }

/-- A state reaching Correct with no recorded issues. -/
def c6State : AgentState :=
  { messages := [⟨"user", "Summarize X"⟩],
    current_plan := some ["Load X", "Summarize"],
    execution_results := [("subtask_0", "First part"), ("subtask_1", "Second part")],
    validation_status := some "failed",
    corrections_needed := [],
    final_output := none,
    metadata := [] }

/-- A failed-validation state with one recorded issue. -/
def c7State : AgentState :=
  { messages := [⟨"user", "Summarize X"⟩],
    current_plan := some ["Load X", "Summarize"],
    execution_results := [("subtask_0", "First part"), ("subtask_1", "Second part")],
    validation_status := some "failed",
    corrections_needed := ["missing citation"],
    final_output := none,
    metadata := [] }

/-- A correction oracle that always fails. -/
def failingCorrOracle : String → String → String → Except String String :=
  fun _ _ _ => Except.error "rate limited"

/-- Oracles whose planning call fails; the downstream oracles would all
succeed if they were ever consulted. -/
def c8Oracles : Oracles where
  planOracle := fun _ => Except.error "oracle unavailable"
  execOracle := scenario1Oracles.execOracle
  valOracle := scenario1Oracles.valOracle
  corrOracle := fun _ _ _ => Except.ok "corrected"

/-- **C3.** The conditional router reaches the Correct stage exactly on
`validationStatus == failed`; every other status (passed or unset) routes
directly to termination. -/
theorem C3_router_correct_iff_failed (state : AgentState) :
    (routeAfterValidator state = some Node.corrector ↔
      state.validation_status = some "failed") ∧
    (routeAfterValidator state = some Node.terminal ↔
      state.validation_status ≠ some "failed") := by
  unfold routeAfterValidator should_correct validatorBranchMap
  by_cases h : state.validation_status = some "failed" <;> simp [h]

/-- **C1** (code bug).  End-to-end scenario 1: planning yields two subtasks,
both succeed, validation passes.  The run succeeds, the Correct stage is
indeed never reached (no corrector turn), but no stage ever assigns
`finalOutput` on the passed branch, so the result record's `output` field is
`none` — not the concatenation `"Result of Load X\n\nResult of Summarize"`
of the execution results that the claim (and the spec's terminal-edge
assignment) requires. -/
theorem C1_passed_run_has_no_output :
    (MultiAgentSystem.run scenario1Oracles [] "Summarize X").map
        (fun r => (r.output, r.messages.map Turn.role)) =
      Except.ok (none, ["user", "planner", "executor", "validator"]) ∧
    (none : Option String) ≠
      some ("Result of Load X" ++ "\n\n" ++ "Result of Summarize") := by
  exact ⟨rfl, by simp⟩

/-- **C2** (counterexample).  A mapping with one entry whose value is the
empty string is all-blank, yet the combined output still contains the
non-blank label `"Subtask subtask_0: "`, so Validate does consult the
oracle; under an approving oracle it returns `passed`, not the claimed
short-circuit failure. -/
theorem C2_blank_values_reach_oracle :
    (ValidatorAgent.validate passingValOracle blankResultsState).map
      AgentState.validation_status = Except.ok (some "passed") := by
  rfl

/-- **C2** (amended).  The short-circuit fires exactly when the
`executionResults` mapping is empty (no entries at all): Validate then sets
`validationStatus := failed`, `correctionsNeeded := ["No execution results
found"]`, appends the validator turn, and returns a state that does not
depend on the oracle. -/
theorem C2_empty_results_short_circuit
    (valOracle : String → String → Except String ValidationResult)
    (state : AgentState) (firstMsg : Turn)
    (hmsg : state.messages.head? = some firstMsg)
    (hres : state.execution_results = []) :
    ValidatorAgent.validate valOracle state = Except.ok
      { state with
        validation_status := some "failed",
        corrections_needed := ["No execution results found"],
        messages := state.messages ++
          [⟨"validator", "Validation failed: No results to validate"⟩] } := by
  unfold ValidatorAgent.validate
  rw [hmsg, hres]
  rfl

/-- Witness for C2 (amended): the freshly initialized state has no execution
results, so validation short-circuits without consulting the (approving)
oracle. -/
theorem C2_empty_results_short_circuit_witness :
    ValidatorAgent.validate passingValOracle (initialState "q") = Except.ok
      { initialState "q" with
        validation_status := some "failed",
        corrections_needed := ["No execution results found"],
        messages := [⟨"user", "q"⟩,
          ⟨"validator", "Validation failed: No results to validate"⟩] } :=
  C2_empty_results_short_circuit passingValOracle (initialState "q")
    ⟨"user", "q"⟩ rfl rfl

/-- **C4** (counterexample).  The executor's trace counts successes with
`v.startswith("ERROR")` — no colon.  A subtask that *succeeds* with the
answer `"ERRORS: none found"` is not prefixed with the error marker
`"ERROR: "`, so the claim counts it as succeeded, yet the appended executor
turn reports `0 successful, 1 errors`. -/
theorem C4_success_starting_with_errorish_text_miscounted :
    ((ExecutorAgent.execute [] errorishOracle errorishState).execution_results.filter
        (fun p => !pyStartsWith p.2 "ERROR: ")).length = 1 ∧
    (ExecutorAgent.execute [] errorishOracle errorishState).messages.getLast? =
      some ⟨"executor", "Completed 1 subtasks (0 successful, 1 errors)"⟩ := by
  exact ⟨rfl, rfl⟩

/-- **C4** (amended).  Execute is total and covers every subtask: the result
list has exactly one entry per planned subtask, a failing subtask `i` yields
`("subtask_i", "ERROR: " ++ message)` while a succeeding one yields its
oracle output, and exactly one executor turn is appended whose summary
reports the total together with a succeeded count that tallies the results
not starting with `"ERROR"` (without the colon — see the counterexample for
the `"ERROR: "` marker reading). -/
theorem C4_execute_covers_all_subtasks
    (tools : List String)
    (execOracle : String → String → Except String String)
    (state : AgentState) (i : Nat)
    (hi : i < (state.current_plan.getD []).length) :
    (ExecutorAgent.execute tools execOracle state).execution_results.length =
      (state.current_plan.getD []).length ∧
    (∀ e, execOracle ((state.current_plan.getD []).get ⟨i, hi⟩)
        (String.intercalate ", " tools) = Except.error e →
      (ExecutorAgent.execute tools execOracle state).execution_results[i]? =
        some (s!"subtask_{i}", "ERROR: " ++ e)) ∧
    (∀ out, execOracle ((state.current_plan.getD []).get ⟨i, hi⟩)
        (String.intercalate ", " tools) = Except.ok out →
      (ExecutorAgent.execute tools execOracle state).execution_results[i]? =
        some (s!"subtask_{i}", out)) ∧
    (ExecutorAgent.execute tools execOracle state).messages =
      state.messages ++ [⟨"executor", executorSummary
        (ExecutorAgent.execute tools execOracle state).execution_results⟩] := by
  refine ⟨?_, ?_, ?_, rfl⟩
  · show ((state.current_plan.getD []).enum.map _).length = _
    rw [List.length_map, List.enum_length]
  · intro e he
    show ((state.current_plan.getD []).enum.map _)[i]? = _
    rw [List.getElem?_map, List.getElem?_enum,
      List.getElem?_eq_getElem hi]
    show some (ExecutorAgent.runSubtask execOracle
      (String.intercalate ", " tools) i
      ((state.current_plan.getD []).get ⟨i, hi⟩)) = _
    unfold ExecutorAgent.runSubtask
    rw [he]
  · intro out hout
    show ((state.current_plan.getD []).enum.map _)[i]? = _
    rw [List.getElem?_map, List.getElem?_enum,
      List.getElem?_eq_getElem hi]
    show some (ExecutorAgent.runSubtask execOracle
      (String.intercalate ", " tools) i
      ((state.current_plan.getD []).get ⟨i, hi⟩)) = _
    unfold ExecutorAgent.runSubtask
    rw [hout]

/-- Witness for C4 (amended): with a two-subtask plan whose second subtask
fails, the failing subtask is recorded under its index with the error
marker. -/
theorem C4_execute_covers_all_subtasks_witness :
    (ExecutorAgent.execute [] c4Oracle c4State).execution_results[1]? =
      some ("subtask_1", "ERROR: boom") :=
  (C4_execute_covers_all_subtasks [] c4Oracle c4State 1 (by decide)).2.1
    "boom" rfl

/-- **C5** (counterexample).  `ValidationResult` does not tie `issues` to
`is_valid`, and Validate copies the oracle's issue list unconditionally: an
oracle response that is valid yet reports an issue leaves the state with
`validationStatus == passed` and a non-empty `correctionsNeeded`. -/
theorem C5_passed_with_nonempty_corrections :
    (ValidatorAgent.validate validWithIssuesOracle someResultsState).map
      (fun s => (s.validation_status, s.corrections_needed)) =
    Except.ok (some "passed", ["minor nit"]) := by
  rfl

/-- **C5** (amended).  Provided every oracle response honours the
`ValidationResult` contract — `issues` empty iff `valid` — any state
Validate returns satisfies the invariant: `correctionsNeeded` is empty iff
`validationStatus == passed`. -/
theorem C5_corrections_empty_iff_passed
    (valOracle : String → String → Except String ValidationResult)
    (state s' : AgentState)
    (hcontract : ∀ q out v, valOracle q out = Except.ok v →
      (v.issues = [] ↔ v.is_valid = true))
    (hrun : ValidatorAgent.validate valOracle state = Except.ok s') :
    (s'.corrections_needed = [] ↔ s'.validation_status = some "passed") := by
  unfold ValidatorAgent.validate at hrun
  cases hm : state.messages.head? with
  | none => rw [hm] at hrun; simp at hrun
  | some firstMsg =>
    rw [hm] at hrun
    set combined := String.intercalate "\n\n"
      (state.execution_results.map
        (fun p => "Subtask " ++ p.1 ++ ": " ++ p.2)) with hcomb
    by_cases hb : pyStrip combined = ""
    · simp only [hb, if_pos] at hrun
      injection hrun with h
      subst h
      simp
    · simp only [hb, if_neg] at hrun
      cases ho : valOracle firstMsg.content combined with
      | ok v =>
        rw [ho] at hrun
        injection hrun with h
        subst h
        have hc := hcontract _ _ v ho
        by_cases hv : v.is_valid = true
        · simp only [hv] at hc
          simp [hv, hc]
        · simp only [Bool.not_eq_true] at hv
          simp only [hv] at hc
          simp [hv, hc]
      | error e =>
        rw [ho] at hrun
        injection hrun with h
        subst h
        simp

/-- Witness for C5 (amended): a contract-respecting approving oracle on a
state with one non-blank result yields `c5PostState`, for which the
invariant holds. -/
theorem C5_corrections_empty_iff_passed_witness :
    c5PostState.corrections_needed = [] ↔
      c5PostState.validation_status = some "passed" :=
  C5_corrections_empty_iff_passed passingValOracle someResultsState
    c5PostState
    (fun q out v h => by
      injection h with h2
      rw [← h2]
      simp)
    rfl

/-- **C6.**  When `correctionsNeeded` is empty, Correct makes no oracle call
(the result is the same for every correction oracle) and sets `finalOutput`
to the execution-result values joined by a blank line, in stored
(subtask-index) order, appending the neutral corrector turn. -/
theorem C6_empty_corrections_concatenates
    (corrOracle : String → String → String → Except String String)
    (state : AgentState)
    (h : state.corrections_needed = []) :
    CorrectorAgent.correct corrOracle state = Except.ok
      { state with
        final_output := some (String.intercalate "\n\n"
          (state.execution_results.map Prod.snd)),
        messages := state.messages ++
          [⟨"corrector", "No corrections needed - output is good!"⟩] } := by
  unfold CorrectorAgent.correct
  rw [h]
  rfl

/-- Witness for C6: two stored results are joined with one blank line; the
stub oracle (which errors if consulted) is never reached. -/
theorem C6_empty_corrections_concatenates_witness :
    CorrectorAgent.correct scenario1Oracles.corrOracle c6State = Except.ok
      { c6State with
        final_output := some "First part\n\nSecond part",
        messages := c6State.messages ++
          [⟨"corrector", "No corrections needed - output is good!"⟩] } :=
  C6_empty_corrections_concatenates scenario1Oracles.corrOracle c6State rfl

/-- **C7.**  With a non-empty issue list, a failing correction oracle does
not raise: `finalOutput` becomes a failure notice carrying the error
message, followed by the original concatenated execution output (the prior
result is preserved verbatim as a suffix), and a corrector turn is
appended. -/
theorem C7_correction_failure_preserves_output
    (corrOracle : String → String → String → Except String String)
    (state : AgentState) (firstMsg : Turn) (e : String)
    (hcorr : state.corrections_needed ≠ [])
    (hmsg : state.messages.head? = some firstMsg)
    (hfail : corrOracle (String.intercalate "\n- " state.corrections_needed)
        (String.intercalate "\n\n" (state.execution_results.map Prod.snd))
        firstMsg.content = Except.error e) :
    CorrectorAgent.correct corrOracle state = Except.ok
      { state with
        final_output := some ("[Correction failed: " ++ e ++
          "]\n\nOriginal output:\n" ++
          String.intercalate "\n\n" (state.execution_results.map Prod.snd)),
        messages := state.messages ++
          [⟨"corrector", "Correction failed: " ++ e⟩] } := by
  have hne : state.corrections_needed.isEmpty = false := by
    cases hl : state.corrections_needed with
    | nil => exact absurd hl hcorr
    | cons a as => rfl
  unfold CorrectorAgent.correct
  simp only [hne, Bool.false_eq_true, if_false, hmsg, hfail]

/-- Witness for C7: a correction oracle failing with `"rate limited"` on a
one-issue state yields the failure notice followed by the untouched
original output. -/
theorem C7_correction_failure_preserves_output_witness :
    CorrectorAgent.correct failingCorrOracle c7State = Except.ok
      { c7State with
        final_output := some ("[Correction failed: rate limited]" ++
          "\n\nOriginal output:\nFirst part\n\nSecond part"),
        messages := c7State.messages ++
          [⟨"corrector", "Correction failed: rate limited"⟩] } :=
  C7_correction_failure_preserves_output failingCorrOracle c7State
    ⟨"user", "Summarize X"⟩ "rate limited" (by decide) rfl rfl

/-- Helper: a planning-oracle failure on the latest message propagates out of
the Plan stage, which performs no local recovery and no state write. -/
theorem plan_oracle_error
    (oracle : String → Except String TaskPlan)
    (state : AgentState) (lastMsg : Turn) (e : String)
    (hlast : state.messages.getLast? = some lastMsg)
    (hfail : oracle lastMsg.content = Except.error e) :
    PlannerAgent.plan oracle state = Except.error e := by
  unfold PlannerAgent.plan
  simp only [hlast, hfail]

/-- **C8.**  If the planning oracle fails on the query, the whole run fails
with that same error — for every execution, validation and correction
oracle, i.e. no downstream stage is ever consulted — and the failed run
returns no state record at all, so no planner/executor/validator/corrector
turn is ever produced. -/
theorem C8_plan_failure_aborts_run
    (o : Oracles) (tools : List String) (user_input : String) (e : String)
    (hfail : o.planOracle user_input = Except.error e) :
    MultiAgentSystem.run o tools user_input = Except.error e ∧
    PlannerAgent.plan o.planOracle (initialState user_input) =
      Except.error e := by
  have hplan : PlannerAgent.plan o.planOracle (initialState user_input) =
      Except.error e :=
    plan_oracle_error o.planOracle (initialState user_input)
      ⟨"user", user_input⟩ e rfl hfail
  refine ⟨?_, hplan⟩
  unfold MultiAgentSystem.run graphInvoke
  rw [hplan]
  rfl

/-- Witness for C8: an unavailable planning oracle aborts the run with its
error even though all downstream oracles would succeed. -/
theorem C8_plan_failure_aborts_run_witness :
    MultiAgentSystem.run c8Oracles [] "Summarize X" =
      Except.error "oracle unavailable" :=
  (C8_plan_failure_aborts_run c8Oracles [] "Summarize X"
    "oracle unavailable" rfl).1

/-- Helper: `add_message` never changes the configured capacity. -/
theorem add_message_max (stm : ShortTermMemory) (r ct : String) :
    (stm.add_message r ct).max_messages = stm.max_messages := by
  simp only [ShortTermMemory.add_message]
  split <;> rfl

/-- Helper: folding `add_message` over any list keeps the capacity. -/
theorem foldl_add_message_max (l : List Turn) (stm : ShortTermMemory) :
    (l.foldl (fun s m => s.add_message m.role m.content) stm).max_messages =
      stm.max_messages := by
  induction l generalizing stm with
  | nil => rfl
  | cons m ms ih => rw [List.foldl_cons, ih, add_message_max]

/-- Helper: for a positive capacity, one `add_message` keeps exactly the
last `max_messages` entries of the appended log. -/
theorem add_message_messages (stm : ShortTermMemory) (r ct : String)
    (hc : 0 < stm.max_messages) :
    (stm.add_message r ct).messages =
      (stm.messages ++ [Turn.mk r ct]).drop
        ((stm.messages ++ [Turn.mk r ct]).length - stm.max_messages) := by
  simp only [ShortTermMemory.add_message]
  split
  · show pySliceLast stm.max_messages (stm.messages ++ [Turn.mk r ct]) = _
    unfold pySliceLast
    rw [if_neg (Nat.pos_iff_ne_zero.mp hc)]
  · next h =>
    show stm.messages ++ [Turn.mk r ct] = _
    rw [Nat.sub_eq_zero_of_le (Nat.le_of_not_lt h), List.drop_zero]

/-- Helper: after adding a whole sequence to a fresh memory of positive
capacity, exactly the most recent `c` entries remain, oldest first. -/
theorem addAll_messages (c : Nat) (hc : 0 < c) (l : List Turn) :
    (ShortTermMemory.addAll c l).messages = l.drop (l.length - c) := by
  induction l using List.reverseRecOn with
  | nil => simp [ShortTermMemory.addAll]
  | append_singleton ms m ih =>
    obtain ⟨mr, mc⟩ := m
    unfold ShortTermMemory.addAll at ih ⊢
    rw [List.foldl_append, List.foldl_cons, List.foldl_nil]
    have hmax : (ms.foldl (fun s m => s.add_message m.role m.content)
        (⟨c, []⟩ : ShortTermMemory)).max_messages = c :=
      foldl_add_message_max ms _
    rw [add_message_messages _ _ _ (by rw [hmax]; exact hc), hmax, ih]
    by_cases hn : ms.length ≤ c
    · rw [Nat.sub_eq_zero_of_le hn, List.drop_zero]
    · have hlen : (ms.drop (ms.length - c)).length = c := by
        rw [List.length_drop]; omega
      have h2 : 1 ≤ (ms.drop (ms.length - c)).length := by
        rw [hlen]; exact hc
      have h1 : ((ms.drop (ms.length - c)) ++ [Turn.mk mr mc]).length - c = 1 := by
        rw [List.length_append, hlen, List.length_singleton]; omega
      have h3 : (ms ++ [Turn.mk mr mc]).length - c ≤ ms.length := by
        rw [List.length_append, List.length_singleton]; omega
      have h4 : ms.length - c + 1 = ms.length + 1 - c := by omega
      rw [h1, List.drop_append_of_le_length h2, List.drop_drop,
        List.drop_append_of_le_length h3, List.length_append,
        List.length_singleton, h4]

/-- **C9.**  For every positive capacity `c` and sequence of added
messages: the log never exceeds `c` entries after any number of adds, and
once more than `c` messages have been added, exactly the most recent `c`
remain, oldest first. -/
theorem C9_short_term_capacity_bound (c : Nat) (hc : 0 < c)
    (toAdd : List Turn) :
    (∀ n : Nat,
      (ShortTermMemory.addAll c (toAdd.take n)).messages.length ≤ c) ∧
    (c < toAdd.length →
      (ShortTermMemory.addAll c toAdd).messages =
        toAdd.drop (toAdd.length - c)) := by
  constructor
  · intro n
    rw [addAll_messages c hc, List.length_drop]
    omega
  · intro _
    exact addAll_messages c hc toAdd

/-- Witness for C9: capacity 2, three adds — only the two most recent
messages remain, in order. -/
theorem C9_short_term_capacity_bound_witness :
    (ShortTermMemory.addAll 2 [⟨"user", "a"⟩, ⟨"assistant", "b"⟩,
        ⟨"user", "c"⟩]).messages =
      [⟨"assistant", "b"⟩, ⟨"user", "c"⟩] :=
  (C9_short_term_capacity_bound 2 (by decide)
    [⟨"user", "a"⟩, ⟨"assistant", "b"⟩, ⟨"user", "c"⟩]).2 (by decide)

/-- **C10.**  On an empty (or absent) plan, Execute returns normally with an
empty `executionResults` mapping and exactly one executor turn reporting
zero subtasks, zero successes and zero errors. -/
theorem C10_execute_empty_plan
    (tools : List String)
    (execOracle : String → String → Except String String)
    (state : AgentState)
    (h : state.current_plan = none ∨ state.current_plan = some []) :
    ExecutorAgent.execute tools execOracle state =
      { state with
        execution_results := [],
        messages := state.messages ++
          [⟨"executor", "Completed 0 subtasks (0 successful, 0 errors)"⟩] } := by
  obtain ⟨msgs, cp, er, vs, cn, fo, md⟩ := state
  rcases h with h | h <;> subst h
  · show ({ messages := msgs ++ [Turn.mk "executor" (executorSummary [])],
            current_plan := none, execution_results := [],
            validation_status := vs, corrections_needed := cn,
            final_output := fo, metadata := md } : AgentState) = _
    rw [show executorSummary [] =
      "Completed 0 subtasks (0 successful, 0 errors)" from rfl]
  · show ({ messages := msgs ++ [Turn.mk "executor" (executorSummary [])],
            current_plan := some [], execution_results := [],
            validation_status := vs, corrections_needed := cn,
            final_output := fo, metadata := md } : AgentState) = _
    rw [show executorSummary [] =
      "Completed 0 subtasks (0 successful, 0 errors)" from rfl]

/-- Witness for C10: the freshly initialized state (no plan yet) runs
Execute without error and reports zero counts. -/
theorem C10_execute_empty_plan_witness :
    ExecutorAgent.execute [] scenario1Oracles.execOracle (initialState "q") =
      { initialState "q" with
        execution_results := [],
        messages := [⟨"user", "q"⟩,
          ⟨"executor", "Completed 0 subtasks (0 successful, 0 errors)"⟩] } :=
  C10_execute_empty_plan [] scenario1Oracles.execOracle (initialState "q")
    (Or.inl rfl)
